import Mathlib

/-!
Shallow embedding of `stk::balance::LifeCycle`
(src/packages/stk/stk_balance/stk_balance/setup/LifeCycle.cpp).

The LifeCycle orchestrator is modelled as a pure state machine.  The outcomes
of its collaborators (the command-line parser, the file-existence validator,
the mesh IO component and the balancer) are supplied by an `Env` record, and
every observable action (stream writes, log-file opening, the invocation of
the read / balance / write pipeline steps) is recorded in an event trace.
-/

set_option autoImplicit false

/-- Output stream targets visible in the program: the two standard streams, a
named log file, or the null sink that non-root processes are bound to. -/
inductive OStream where
  | cout
  | cerr
  | logFile (name : String)
  | null
  deriving DecidableEq, Repr

/-- Observable events of one LifeCycle instance: opening a named log file,
the three collective pipeline invocations, and a line of text written to a
stream. Writing to the null sink produces no event (zero bytes reach any
real stream). -/
inductive Event where
  | openLog (name : String)
  | readE
  | balanceE
  | writeE
  | out (s : OStream) (line : String)
  deriving DecidableEq, Repr

/-- `BalanceSettings`, as far as LifeCycle.cpp reads it: input, output and
log filenames plus the output directory (spec section 3). -/
structure Settings where
  inputFilename : String
  outputFilename : String
  outputDirectory : String
  logFilename : String
  deriving DecidableEq, Repr

/-- Environment of collaborator outcomes for one process. `parseResult` is
the outcome of `Parser::parse_command_line_options`, `fileExists` the
validator's file check, `canonical` path canonicalization, and the last three
fields the outcomes of `BalanceIO::initial_decomp`, `Balancer::balance` and
`BalanceIO::write` (meshes are abstracted as `Nat` handles). `Except.error`
models a thrown `std::exception` carrying its `what()` string. -/
structure Env where
  rank : Nat
  size : Nat
  parseResult : Except String Settings
  fileExists : String → Bool
  canonical : String → String
  initialDecomp : Except String Nat
  balanceMesh : Nat → Except String Nat
  writeMesh : Nat → Except String Unit

/-- The LifeCycle object state: `m_exitCode`, `m_isProc0`, `m_settings` and
the current binding of the `outputP0` diagnostic stream. -/
structure LifeCycle where
  exitCode : Nat
  isProc0 : Bool
  settings : Settings
  outputP0 : OStream
  deriving DecidableEq, Repr

/-- Default-constructed settings (the value `m_settings` holds when parsing
fails before filling it). -/
def defaultSettings : Settings :=
  { inputFilename := "", outputFilename := "", outputDirectory := "", logFilename := "" }

/-- `LifeCycle::parse` (LifeCycle.cpp lines 99-103): run the parser, then
require that the input file exists.  The parser and validator sources are not
in src/; their failure modes are modelled from the spec: the parser fails on
malformed input, `Validator.requireFileExists` fails when the path does not
resolve to an existing file. -/
def lcParse (env : Env) : Except String Settings :=
  match env.parseResult with
  | Except.error e => Except.error e
  | Except.ok s =>
      if env.fileExists s.inputFilename then Except.ok s
      else Except.error ("input file does not exist: " ++ s.inputFilename)

/-- `stk::get_log_ostream` restricted to how LifeCycle.cpp uses it: the
sentinel names yield the corresponding standard stream; any other name is a
registered log-file stream. -/
def get_log_ostream (name : String) : OStream :=
  if name = "cout" then OStream.cout
  else if name = "cerr" then OStream.cerr
  else OStream.logFile name

/-- `LifeCycle::set_output_streams` (lines 120-137): on the root process a
sentinel log name binds `outputP0` to that standard stream, any other name
opens the named log file and binds `outputP0` to it; non-root processes get
the null sink and open nothing. -/
def set_output_streams (isProc0 : Bool) (logName : String) : OStream × List Event :=
  if isProc0 then
    if logName = "cout" || logName = "cerr" then (get_log_ostream logName, [])
    else (OStream.logFile logName, [Event.openLog logName])
  else (OStream.null, [])

/-- Write one line to a stream; the null sink swallows it (no bytes reach any
standard or log stream). -/
def emit (s : OStream) (line : String) : List Event :=
  if s = OStream.null then [] else [Event.out s line]

/-- `LifeCycle::print_parse_error` (lines 139-144): root process writes the
exception text to `std::cerr`; other ranks write nothing. -/
def print_parse_error (isProc0 : Bool) (what : String) : List Event :=
  if isProc0 then [Event.out OStream.cerr what] else []

/-- `LifeCycle::print_balance_error` (lines 146-151): root process writes the
exception text to `std::cerr`; other ranks write nothing. -/
def print_balance_error (isProc0 : Bool) (what : String) : List Event :=
  if isProc0 then [Event.out OStream.cerr what] else []

/-- The no-op message text (lines 155-158). -/
def noOpMessage (s : Settings) : String :=
  "Running on 1 MPI rank and input-file (" ++ s.inputFilename
    ++ ") == output-file (" ++ s.outputFilename
    ++ "), doing nothing. Specify outputDirectory if you "
    ++ "wish to copy the input-file to an output-file of the same name."

/-- `LifeCycle::print_no_op_message` (lines 153-159): written to `outputP0`
on every rank; the binding makes it the null sink off the root. -/
def print_no_op_message (lc : LifeCycle) : List Event :=
  emit lc.outputP0 (noOpMessage lc.settings)

/-- Modelled from the spec: `print_banner` (stk_balance/internal/LogUtils.hpp,
not in src/) writes environment banner text to the stream it is handed. -/
def print_banner (s : OStream) : List Event :=
  emit s "stk_balance environment banner"

/-- Line 168: a log name other than the two sentinels means a named log file
is in use. -/
def usingLogFile (logName : String) : Bool :=
  !(logName == "cout" || logName == "cerr")

/-- The targets the short-lived `diag_stream` is routed to (lines 167-175):
in named-file mode the log stream plus standard out, in sentinel mode the
sentinel stream alone. -/
def diagTargets (logName : String) : List OStream :=
  if usingLogFile logName then [OStream.logFile logName, OStream.cout]
  else [get_log_ostream logName]

/-- The lines of the running banner (lines 178-183), in order. -/
def runningLines (s : Settings) (numRanks : Nat) : List String :=
  ["Running stk_balance on " ++ toString numRanks ++ " MPI ranks"]
    ++ (if usingLogFile s.logFilename then ["        Log file: " ++ s.logFilename] else [])
    ++ ["      Input file: " ++ s.inputFilename,
        "    Output files: " ++ s.outputFilename ++ "." ++ toString numRanks ++ ".*"]

/-- Write each line, in order, to every target of a tee'd stream. -/
def teeAll (targets : List OStream) : List String → List Event
  | [] => []
  | l :: ls => targets.map (fun t => Event.out t l) ++ teeAll targets ls

/-- `LifeCycle::print_running_message` (lines 161-187): root only; the banner
lines go through the tee'd diagnostic stream. -/
def print_running_message (isProc0 : Bool) (s : Settings) (numRanks : Nat) : List Event :=
  if isProc0 then teeAll (diagTargets s.logFilename) (runningLines s numRanks) else []

/-- Modelled from the spec: `Validator.isSerialNoOp` (the Validator source is
not in src/) — true iff the process-group size is exactly 1 and the
canonicalized input path equals the canonicalized output path (spec 4.2). -/
def serial_input_equals_output (env : Env) (inFile outFile : String) : Bool :=
  env.size == 1 && env.canonical inFile == env.canonical outFile

/-- `LifeCycle::serial_no_op` (lines 105-108). -/
def serial_no_op (env : Env) (lc : LifeCycle) : Bool :=
  serial_input_equals_output env lc.settings.inputFilename lc.settings.outputFilename

/-- `LifeCycle::balance` (lines 110-118): invoke `initial_decomp`, then
`balance`, then `write`; a thrown exception aborts the sequence and is
returned as the `Option String` component. -/
def balanceStep (env : Env) : List Event × Option String :=
  match env.initialDecomp with
  | Except.error e => ([Event.readE], some e)
  | Except.ok mesh =>
      match env.balanceMesh mesh with
      | Except.error e => ([Event.readE, Event.balanceE], some e)
      | Except.ok balanced =>
          match env.writeMesh balanced with
          | Except.error e => ([Event.readE, Event.balanceE, Event.writeE], some e)
          | Except.ok _ => ([Event.readE, Event.balanceE, Event.writeE], none)

/-- `LifeCycle::LifeCycle` (lines 48-69): parse; a parse failure prints the
error and leaves the object terminal with exit code 1; on success the output
streams are bound. -/
def constructLC (env : Env) : LifeCycle × List Event :=
  let isProc0 := env.rank == 0
  match lcParse env with
  | Except.error msg =>
      ({ exitCode := 1, isProc0 := isProc0, settings := defaultSettings,
         outputP0 := OStream.cout },
       print_parse_error isProc0 msg)
  | Except.ok s =>
      let so := set_output_streams isProc0 s.logFilename
      ({ exitCode := 0, isProc0 := isProc0, settings := s, outputP0 := so.1 }, so.2)

/-- `LifeCycle::run` (lines 71-92): return immediately on a non-zero exit
code; otherwise print the running message and banner, short-circuit on the
serial no-op, else run the pipeline, classifying any failure as exit code 2. -/
def runLC (env : Env) (lc : LifeCycle) : LifeCycle × List Event :=
  if lc.exitCode ≠ 0 then (lc, [])
  else
    let ev1 := print_running_message lc.isProc0 lc.settings env.size ++ print_banner lc.outputP0
    if serial_no_op env lc then
      (lc, ev1 ++ print_no_op_message lc)
    else
      match balanceStep env with
      | (evs, none) => (lc, ev1 ++ evs)
      | (evs, some msg) =>
          ({ lc with exitCode := 2 }, ev1 ++ evs ++ print_balance_error lc.isProc0 msg)

/-- `LifeCycle::exit_code` (lines 94-97): a pure accessor of `m_exitCode`. -/
def exit_code (lc : LifeCycle) : Nat :=
  lc.exitCode

/-- Pipeline-invocation events (read / balance / write). -/
def isPipelineEvent : Event → Bool
  | Event.readE => true
  | Event.balanceE => true
  | Event.writeE => true
  | _ => false

/-- Stream-write events (bytes reaching a real stream). -/
def isOutEvent : Event → Bool
  | Event.out _ _ => true
  | _ => false

/-! ### Unfolding and trace-shape lemmas -/

theorem constructLC_err (env : Env) (msg : String) (hp : lcParse env = Except.error msg) :
    constructLC env =
      ({ exitCode := 1, isProc0 := env.rank == 0, settings := defaultSettings,
         outputP0 := OStream.cout },
       print_parse_error (env.rank == 0) msg) := by
  unfold constructLC
  rw [hp]

theorem constructLC_ok (env : Env) (s : Settings) (hp : lcParse env = Except.ok s) :
    constructLC env =
      ({ exitCode := 0, isProc0 := env.rank == 0, settings := s,
         outputP0 := (set_output_streams (env.rank == 0) s.logFilename).1 },
       (set_output_streams (env.rank == 0) s.logFilename).2) := by
  unfold constructLC
  rw [hp]

theorem runLC_stop (env : Env) (lc : LifeCycle) (h : lc.exitCode ≠ 0) :
    runLC env lc = (lc, []) := by
  unfold runLC
  rw [if_pos h]

theorem runLC_noop (env : Env) (lc : LifeCycle) (h0 : lc.exitCode = 0)
    (hs : serial_no_op env lc = true) :
    runLC env lc =
      (lc, (print_running_message lc.isProc0 lc.settings env.size ++ print_banner lc.outputP0)
             ++ print_no_op_message lc) := by
  unfold runLC
  rw [if_neg (by simp [h0]), hs]
  simp

theorem runLC_pipeline_ok (env : Env) (lc : LifeCycle) (evs : List Event)
    (h0 : lc.exitCode = 0) (hs : serial_no_op env lc = false)
    (hbs : balanceStep env = (evs, none)) :
    runLC env lc =
      (lc, (print_running_message lc.isProc0 lc.settings env.size ++ print_banner lc.outputP0)
             ++ evs) := by
  unfold runLC
  rw [if_neg (by simp [h0]), hs, hbs]
  simp

theorem runLC_pipeline_fail (env : Env) (lc : LifeCycle) (evs : List Event) (msg : String)
    (h0 : lc.exitCode = 0) (hs : serial_no_op env lc = false)
    (hbs : balanceStep env = (evs, some msg)) :
    runLC env lc =
      ({ lc with exitCode := 2 },
       (print_running_message lc.isProc0 lc.settings env.size ++ print_banner lc.outputP0)
         ++ evs ++ print_balance_error lc.isProc0 msg) := by
  unfold runLC
  rw [if_neg (by simp [h0]), hs, hbs]
  simp

theorem balanceStep_read_err (env : Env) (e : String) (h : env.initialDecomp = Except.error e) :
    balanceStep env = ([Event.readE], some e) := by
  unfold balanceStep
  rw [h]

theorem balanceStep_balance_err (env : Env) (m : Nat) (e : String)
    (h1 : env.initialDecomp = Except.ok m) (h2 : env.balanceMesh m = Except.error e) :
    balanceStep env = ([Event.readE, Event.balanceE], some e) := by
  simp [balanceStep, h1, h2]

theorem balanceStep_write_err (env : Env) (m mb : Nat) (e : String)
    (h1 : env.initialDecomp = Except.ok m) (h2 : env.balanceMesh m = Except.ok mb)
    (h3 : env.writeMesh mb = Except.error e) :
    balanceStep env = ([Event.readE, Event.balanceE, Event.writeE], some e) := by
  simp [balanceStep, h1, h2, h3]

theorem balanceStep_all_ok (env : Env) (m mb : Nat)
    (h1 : env.initialDecomp = Except.ok m) (h2 : env.balanceMesh m = Except.ok mb)
    (h3 : env.writeMesh mb = Except.ok ()) :
    balanceStep env = ([Event.readE, Event.balanceE, Event.writeE], none) := by
  simp [balanceStep, h1, h2, h3]

theorem balanceStep_none_shape (env : Env) (evs : List Event)
    (h : balanceStep env = (evs, none)) : evs = [Event.readE, Event.balanceE, Event.writeE] := by
  rcases hd : env.initialDecomp with e | m
  · rw [balanceStep_read_err env e hd] at h
    exact Option.noConfusion (congrArg Prod.snd h)
  · rcases hb : env.balanceMesh m with e | mb
    · rw [balanceStep_balance_err env m e hd hb] at h
      exact Option.noConfusion (congrArg Prod.snd h)
    · rcases hw : env.writeMesh mb with e | u
      · rw [balanceStep_write_err env m mb e hd hb hw] at h
        exact Option.noConfusion (congrArg Prod.snd h)
      · cases u
        rw [balanceStep_all_ok env m mb hd hb hw] at h
        exact (congrArg Prod.fst h).symm

/-! ### Trace classification lemmas -/

theorem filter_pipeline_map_out (ts : List OStream) (l : String) :
    (ts.map (fun t => Event.out t l)).filter isPipelineEvent = [] := by
  induction ts with
  | nil => rfl
  | cons t ts ih => simp [List.filter, isPipelineEvent, ih]

theorem filter_pipeline_teeAll (ts : List OStream) (ls : List String) :
    (teeAll ts ls).filter isPipelineEvent = [] := by
  induction ls with
  | nil => rfl
  | cons l ls ih => simp [teeAll, List.filter_append, filter_pipeline_map_out, ih]

theorem filter_pipeline_emit (s : OStream) (l : String) :
    (emit s l).filter isPipelineEvent = [] := by
  unfold emit
  split <;> rfl

theorem filter_pipeline_print_running (p : Bool) (s : Settings) (n : Nat) :
    (print_running_message p s n).filter isPipelineEvent = [] := by
  cases p with
  | false => rfl
  | true => simp [print_running_message, filter_pipeline_teeAll]

theorem filter_pipeline_print_banner (s : OStream) :
    (print_banner s).filter isPipelineEvent = [] :=
  filter_pipeline_emit s _

theorem filter_pipeline_no_op (lc : LifeCycle) :
    (print_no_op_message lc).filter isPipelineEvent = [] :=
  filter_pipeline_emit lc.outputP0 _

theorem filter_pipeline_balance_error (p : Bool) (msg : String) :
    (print_balance_error p msg).filter isPipelineEvent = [] := by
  cases p <;> rfl

theorem filter_pipeline_prefix (lc : LifeCycle) (env : Env) :
    ((print_running_message lc.isProc0 lc.settings env.size ++ print_banner lc.outputP0)).filter
        isPipelineEvent = [] := by
  simp [List.filter_append, filter_pipeline_print_running, filter_pipeline_print_banner]

theorem filter_out_balanceStep (env : Env) :
    (balanceStep env).1.filter isOutEvent = [] := by
  rcases hd : env.initialDecomp with e | m
  · rw [balanceStep_read_err env e hd]; rfl
  · rcases hb : env.balanceMesh m with e | mb
    · rw [balanceStep_balance_err env m e hd hb]; rfl
    · rcases hw : env.writeMesh mb with e | u
      · rw [balanceStep_write_err env m mb e hd hb hw]; rfl
      · cases u
        rw [balanceStep_all_ok env m mb hd hb hw]; rfl

/-! ### Concrete sample configurations used as witnesses -/

def sampleSettingsA : Settings :=
  { inputFilename := "mesh.g", outputFilename := "balanced.g",
    outputDirectory := "", logFilename := "cout" }

def sampleSettingsNoOp : Settings :=
  { inputFilename := "mesh.g", outputFilename := "mesh.g",
    outputDirectory := "", logFilename := "cout" }

def sampleSettingsLog : Settings :=
  { inputFilename := "mesh.g", outputFilename := "balanced.g",
    outputDirectory := "", logFilename := "balance.log" }

def envRunOK : Env :=
  { rank := 0, size := 4,
    parseResult := Except.ok sampleSettingsA,
    fileExists := fun _ => true,
    canonical := fun p => p,
    initialDecomp := Except.ok 0,
    balanceMesh := fun m => Except.ok m,
    writeMesh := fun _ => Except.ok () }

def envParseFail : Env :=
  { envRunOK with parseResult := Except.error "Unrecognized option: --bogus" }

def envNoOp : Env :=
  { envRunOK with size := 1, parseResult := Except.ok sampleSettingsNoOp }

def envBalanceFail : Env :=
  { envRunOK with balanceMesh := fun _ => Except.error "decomposition error" }

def envLogBalanceFail : Env :=
  { envRunOK with parseResult := Except.ok sampleSettingsLog,
                  balanceMesh := fun _ => Except.error "boom" }

def envNonRoot : Env :=
  { envRunOK with rank := 2 }

/-! ### Projection lemmas for the constructed LifeCycle -/

theorem constructLC_err_exit (env : Env) (msg : String)
    (hp : lcParse env = Except.error msg) : (constructLC env).1.exitCode = 1 := by
  rw [constructLC_err env msg hp]

theorem constructLC_ok_exit (env : Env) (s : Settings)
    (hp : lcParse env = Except.ok s) : (constructLC env).1.exitCode = 0 := by
  rw [constructLC_ok env s hp]

theorem constructLC_ok_settings (env : Env) (s : Settings)
    (hp : lcParse env = Except.ok s) : (constructLC env).1.settings = s := by
  rw [constructLC_ok env s hp]

theorem constructLC_ok_isProc0 (env : Env) (s : Settings)
    (hp : lcParse env = Except.ok s) : (constructLC env).1.isProc0 = (env.rank == 0) := by
  rw [constructLC_ok env s hp]

theorem constructLC_ok_outputP0 (env : Env) (s : Settings)
    (hp : lcParse env = Except.ok s) :
    (constructLC env).1.outputP0 = (set_output_streams (env.rank == 0) s.logFilename).1 := by
  rw [constructLC_ok env s hp]

theorem serial_no_op_false_of_canon_ne (env : Env) (lc : LifeCycle)
    (h : env.canonical lc.settings.inputFilename ≠ env.canonical lc.settings.outputFilename) :
    serial_no_op env lc = false := by
  simp [serial_no_op, serial_input_equals_output, h]

theorem serial_no_op_true_of (env : Env) (lc : LifeCycle) (h1 : env.size = 1)
    (h2 : env.canonical lc.settings.inputFilename = env.canonical lc.settings.outputFilename) :
    serial_no_op env lc = true := by
  simp [serial_no_op, serial_input_equals_output, h1, h2]

/-! ### Claims -/

/-- C1: if construction is given a malformed argument list, or well-formed
arguments whose input path does not resolve to an existing file, then
`exit_code` returns 1 after construction, and any subsequent `run` is a pure
no-op: it returns immediately, invokes no collaborator (no read, balance or
write) and produces no output. -/
theorem construction_failure_blocks_run (env : Env)
    (h : (∃ e, env.parseResult = Except.error e) ∨
         (∃ s, env.parseResult = Except.ok s ∧ env.fileExists s.inputFilename = false)) :
    exit_code (constructLC env).1 = 1 ∧
    runLC env (constructLC env).1 = ((constructLC env).1, []) := by
  have hp : ∃ msg, lcParse env = Except.error msg := by
    rcases h with ⟨e, he⟩ | ⟨s, hs, hf⟩
    · exact ⟨e, by simp [lcParse, he]⟩
    · exact ⟨"input file does not exist: " ++ s.inputFilename, by simp [lcParse, hs, hf]⟩
  rcases hp with ⟨msg, hp⟩
  have h1 := constructLC_err_exit env msg hp
  exact ⟨h1, runLC_stop env _ (by rw [h1]; exact one_ne_zero)⟩

/-- Witness for C1 at a malformed argument list. -/
theorem construction_failure_blocks_run_w :
    exit_code (constructLC envParseFail).1 = 1 ∧
    runLC envParseFail (constructLC envParseFail).1 = ((constructLC envParseFail).1, []) :=
  construction_failure_blocks_run envParseFail
    (Or.inl ⟨"Unrecognized option: --bogus", rfl⟩)

/-- C2: for a well-formed, valid configuration with process-group size 1 and
canonical input path equal to canonical output path, `run` terminates with
exit code 0 and invokes none of the mesh pipeline operations (no read, no
balance, no write). -/
theorem serial_noop_skips_pipeline (env : Env) (s : Settings)
    (hp : lcParse env = Except.ok s)
    (hsize : env.size = 1)
    (hio : env.canonical s.inputFilename = env.canonical s.outputFilename) :
    exit_code (runLC env (constructLC env).1).1 = 0 ∧
    (runLC env (constructLC env).1).2.filter isPipelineEvent = [] := by
  have hset := constructLC_ok_settings env s hp
  have hs : serial_no_op env (constructLC env).1 = true :=
    serial_no_op_true_of env _ hsize (by rw [hset]; exact hio)
  rw [runLC_noop env _ (constructLC_ok_exit env s hp) hs]
  refine ⟨constructLC_ok_exit env s hp, ?_⟩
  simp [List.filter_append, filter_pipeline_print_running, filter_pipeline_print_banner,
    filter_pipeline_no_op]

/-- Witness for C2 at a size-1 group with input equal to output. -/
theorem serial_noop_skips_pipeline_w :
    exit_code (runLC envNoOp (constructLC envNoOp).1).1 = 0 ∧
    (runLC envNoOp (constructLC envNoOp).1).2.filter isPipelineEvent = [] :=
  serial_noop_skips_pipeline envNoOp sampleSettingsNoOp rfl rfl rfl

/-- C3: for a well-formed, valid configuration whose input path differs from
its output path, `run` invokes read, balance and write exactly once each and
in exactly that order, and when all three succeed the exit code is 0. -/
theorem run_pipeline_in_order (env : Env) (s : Settings) (m mb : Nat)
    (hp : lcParse env = Except.ok s)
    (hneq : env.canonical s.inputFilename ≠ env.canonical s.outputFilename)
    (hr : env.initialDecomp = Except.ok m)
    (hb : env.balanceMesh m = Except.ok mb)
    (hw : env.writeMesh mb = Except.ok ()) :
    exit_code (runLC env (constructLC env).1).1 = 0 ∧
    (runLC env (constructLC env).1).2.filter isPipelineEvent
      = [Event.readE, Event.balanceE, Event.writeE] := by
  have hset := constructLC_ok_settings env s hp
  have hs : serial_no_op env (constructLC env).1 = false :=
    serial_no_op_false_of_canon_ne env _ (by rw [hset]; exact hneq)
  rw [runLC_pipeline_ok env _ _ (constructLC_ok_exit env s hp) hs
    (balanceStep_all_ok env m mb hr hb hw)]
  refine ⟨constructLC_ok_exit env s hp, ?_⟩
  simp [List.filter_append, filter_pipeline_print_running, filter_pipeline_print_banner,
    List.filter, isPipelineEvent]

/-- Witness for C3 at a 4-rank run with distinct input and output files. -/
theorem run_pipeline_in_order_w :
    exit_code (runLC envRunOK (constructLC envRunOK).1).1 = 0 ∧
    (runLC envRunOK (constructLC envRunOK).1).2.filter isPipelineEvent
      = [Event.readE, Event.balanceE, Event.writeE] :=
  run_pipeline_in_order envRunOK sampleSettingsA 0 0 rfl (by decide) rfl rfl rfl

/-- C4: if any of the read, balance or write steps raises an exception during
`run`, the exception is caught inside `run` (the embedding of `run` is a total
function returning normally), the exit code becomes 2, no later pipeline step
executes — in particular write never runs after a balance failure — and the
failing step is not retried (each step appears at most once in the trace). -/
theorem run_failure_sets_exit_two (env : Env) (s : Settings)
    (hp : lcParse env = Except.ok s)
    (hno : serial_no_op env (constructLC env).1 = false) :
    (∀ e, env.initialDecomp = Except.error e →
       exit_code (runLC env (constructLC env).1).1 = 2 ∧
       (runLC env (constructLC env).1).2.filter isPipelineEvent = [Event.readE]) ∧
    (∀ m e, env.initialDecomp = Except.ok m → env.balanceMesh m = Except.error e →
       exit_code (runLC env (constructLC env).1).1 = 2 ∧
       (runLC env (constructLC env).1).2.filter isPipelineEvent
         = [Event.readE, Event.balanceE]) ∧
    (∀ m mb e, env.initialDecomp = Except.ok m → env.balanceMesh m = Except.ok mb →
       env.writeMesh mb = Except.error e →
       exit_code (runLC env (constructLC env).1).1 = 2 ∧
       (runLC env (constructLC env).1).2.filter isPipelineEvent
         = [Event.readE, Event.balanceE, Event.writeE]) := by
  have h0 := constructLC_ok_exit env s hp
  refine ⟨?_, ?_, ?_⟩
  · intro e he
    rw [runLC_pipeline_fail env _ _ e h0 hno (balanceStep_read_err env e he)]
    refine ⟨rfl, ?_⟩
    simp [List.filter_append, filter_pipeline_print_running, filter_pipeline_print_banner,
      filter_pipeline_balance_error, List.filter, isPipelineEvent]
  · intro m e hm he
    rw [runLC_pipeline_fail env _ _ e h0 hno (balanceStep_balance_err env m e hm he)]
    refine ⟨rfl, ?_⟩
    simp [List.filter_append, filter_pipeline_print_running, filter_pipeline_print_banner,
      filter_pipeline_balance_error, List.filter, isPipelineEvent]
  · intro m mb e hm hmb he
    rw [runLC_pipeline_fail env _ _ e h0 hno (balanceStep_write_err env m mb e hm hmb he)]
    refine ⟨rfl, ?_⟩
    simp [List.filter_append, filter_pipeline_print_running, filter_pipeline_print_banner,
      filter_pipeline_balance_error, List.filter, isPipelineEvent]

/-- Witness for C4 at a run whose balance step throws. -/
theorem run_failure_sets_exit_two_w :
    exit_code (runLC envBalanceFail (constructLC envBalanceFail).1).1 = 2 ∧
    (runLC envBalanceFail (constructLC envBalanceFail).1).2.filter isPipelineEvent
      = [Event.readE, Event.balanceE] :=
  (run_failure_sets_exit_two envBalanceFail sampleSettingsA rfl (by decide)).2.1
    0 "decomposition error" rfl rfl

/-- C5 counterexample: with a named log file configured (`balance.log`), the
balance-failure diagnostic is written to standard error, not to the bound
diagnostic stream, so the failure text does not go to whichever stream the
OutputRouter configuration bound. -/
theorem failure_diag_stream_counterexample :
    exit_code (runLC envLogBalanceFail (constructLC envLogBalanceFail).1).1 = 2 ∧
    (constructLC envLogBalanceFail).1.outputP0 = OStream.logFile "balance.log" ∧
    Event.out OStream.cerr "boom"
      ∈ (runLC envLogBalanceFail (constructLC envLogBalanceFail).1).2 ∧
    Event.out (OStream.logFile "balance.log") "boom"
      ∉ (runLC envLogBalanceFail (constructLC envLogBalanceFail).1).2 := by
  decide

/-- C5 (amended): on every failure — a parse failure during construction or a
balance failure during `run` — exactly one line of diagnostic text is
produced, it is written only by the root process, it goes to the standard
error stream regardless of the OutputRouter stream binding, and non-root
processes produce no output on failure. -/
theorem failure_diag_one_line_to_cerr (env : Env) (msg : String) :
    (lcParse env = Except.error msg →
       (constructLC env).2 =
         if env.rank == 0 then [Event.out OStream.cerr msg] else []) ∧
    (∀ s evs, lcParse env = Except.ok s →
       serial_no_op env (constructLC env).1 = false →
       balanceStep env = (evs, some msg) →
       (runLC env (constructLC env).1).2 =
         (print_running_message (env.rank == 0) s env.size
            ++ print_banner (set_output_streams (env.rank == 0) s.logFilename).1 ++ evs)
           ++ (if env.rank == 0 then [Event.out OStream.cerr msg] else [])) := by
  constructor
  · intro hp
    rw [constructLC_err env msg hp]
    rfl
  · intro s evs hp hno hbs
    rw [runLC_pipeline_fail env _ evs msg (constructLC_ok_exit env s hp) hno hbs]
    rw [constructLC_ok_isProc0 env s hp, constructLC_ok_settings env s hp,
      constructLC_ok_outputP0 env s hp]
    rfl

/-- Witness for C5 (amended) at a root-process balance failure with a named
log file. -/
theorem failure_diag_one_line_to_cerr_w :
    (runLC envLogBalanceFail (constructLC envLogBalanceFail).1).2 =
      (print_running_message (envLogBalanceFail.rank == 0) sampleSettingsLog envLogBalanceFail.size
         ++ print_banner
              (set_output_streams (envLogBalanceFail.rank == 0) sampleSettingsLog.logFilename).1
         ++ [Event.readE, Event.balanceE])
        ++ (if envLogBalanceFail.rank == 0 then [Event.out OStream.cerr "boom"] else []) :=
  (failure_diag_one_line_to_cerr envLogBalanceFail "boom").2 sampleSettingsLog
    [Event.readE, Event.balanceE] rfl (by decide) rfl

theorem mem_teeAll (ts : List OStream) (ls : List String) (t : OStream) (l : String)
    (ht : t ∈ ts) (hl : l ∈ ls) : Event.out t l ∈ teeAll ts ls := by
  induction ls with
  | nil => cases hl
  | cons a as ih =>
    rcases List.mem_cons.mp hl with rfl | h
    · exact List.mem_append_left _ (List.mem_map.mpr ⟨t, ht, rfl⟩)
    · exact List.mem_append_right _ (ih h)

/-- C6: the running banner reports the output-file pattern as exactly the
configured output filename, a dot, the number of processes, then `.*` — the
line with exactly that text is among the banner lines and is written to every
target of the diagnostic stream on the root process. -/
theorem banner_output_pattern (s : Settings) (n : Nat) :
    ("    Output files: " ++ (s.outputFilename ++ "." ++ toString n ++ ".*"))
      ∈ runningLines s n ∧
    (∀ t, t ∈ diagTargets s.logFilename →
       Event.out t ("    Output files: " ++ (s.outputFilename ++ "." ++ toString n ++ ".*"))
         ∈ print_running_message true s n) := by
  have hline : ("    Output files: " ++ (s.outputFilename ++ "." ++ toString n ++ ".*"))
      ∈ runningLines s n := by
    unfold runningLines
    cases h : usingLogFile s.logFilename <;> simp [h, String.append_assoc]
  refine ⟨hline, fun t ht => ?_⟩
  have hpr : print_running_message true s n
      = teeAll (diagTargets s.logFilename) (runningLines s n) := rfl
  rw [hpr]
  exact mem_teeAll _ _ t _ ht hline

/-- Witness for C6 at a named-log configuration on 4 ranks. -/
theorem banner_output_pattern_w :
    ("    Output files: "
        ++ (sampleSettingsLog.outputFilename ++ "." ++ toString 4 ++ ".*"))
      ∈ runningLines sampleSettingsLog 4 ∧
    Event.out OStream.cout
        ("    Output files: "
          ++ (sampleSettingsLog.outputFilename ++ "." ++ toString 4 ++ ".*"))
      ∈ print_running_message true sampleSettingsLog 4 :=
  ⟨(banner_output_pattern sampleSettingsLog 4).1,
   (banner_output_pattern sampleSettingsLog 4).2 OStream.cout (by decide)⟩

/-- C7: `exit_code` is a pure accessor of the stored exit code; once the exit
code is non-zero, `run` returns immediately without side effects and without
overwriting it; and a second call to `run` after any terminal state leaves the
value returned by `exit_code` unchanged. -/
theorem exit_code_idempotent_monotonic (env : Env) (lc : LifeCycle) :
    exit_code lc = lc.exitCode ∧
    (exit_code lc ≠ 0 → runLC env lc = (lc, [])) ∧
    exit_code (runLC env (runLC env lc).1).1 = exit_code (runLC env lc).1 := by
  refine ⟨rfl, fun h => runLC_stop env lc h, ?_⟩
  by_cases h0 : lc.exitCode = 0
  · cases hs : serial_no_op env lc with
    | false =>
      rcases hbs : balanceStep env with ⟨evs, omsg⟩
      cases omsg with
      | none =>
        have h1 : (runLC env lc).1 = lc := by rw [runLC_pipeline_ok env lc evs h0 hs hbs]
        conv_lhs => rw [h1]
      | some msg =>
        have h1 : (runLC env lc).1 = { lc with exitCode := 2 } := by
          rw [runLC_pipeline_fail env lc evs msg h0 hs hbs]
        have h2 : runLC env { lc with exitCode := 2 } = ({ lc with exitCode := 2 }, []) :=
          runLC_stop env _ (by simp)
        rw [h1, h2]
    | true =>
      have h1 : (runLC env lc).1 = lc := by rw [runLC_noop env lc h0 hs]
      conv_lhs => rw [h1]
  · have h1 : (runLC env lc).1 = lc := by rw [runLC_stop env lc h0]
    conv_lhs => rw [h1]

/-- Witness for C7: the non-zero-exit guard discharged on a parse-failed
instance. -/
theorem exit_code_idempotent_monotonic_w :
    runLC envParseFail (constructLC envParseFail).1
      = ((constructLC envParseFail).1, []) :=
  (exit_code_idempotent_monotonic envParseFail (constructLC envParseFail).1).2.1 (by decide)

/-- C8: after a successful parse the diagnostic stream is bound as a function
of the log filename: sentinel `"cout"` / `"cerr"` bind the root process's
stream to that standard stream directly, any other name binds the root's
stream to the named log file (opening it), and every non-root process gets
the null sink with no file or stream resource opened. -/
theorem output_stream_binding (env : Env) (s : Settings)
    (hp : lcParse env = Except.ok s) :
    (env.rank = 0 →
       (s.logFilename = "cout" → (constructLC env).1.outputP0 = OStream.cout) ∧
       (s.logFilename = "cerr" → (constructLC env).1.outputP0 = OStream.cerr) ∧
       (s.logFilename ≠ "cout" → s.logFilename ≠ "cerr" →
          (constructLC env).1.outputP0 = OStream.logFile s.logFilename ∧
          (constructLC env).2 = [Event.openLog s.logFilename])) ∧
    (env.rank ≠ 0 →
       (constructLC env).1.outputP0 = OStream.null ∧ (constructLC env).2 = []) := by
  have hO := constructLC_ok_outputP0 env s hp
  have hE : (constructLC env).2 = (set_output_streams (env.rank == 0) s.logFilename).2 := by
    rw [constructLC_ok env s hp]
  constructor
  · intro hr
    have hb : (env.rank == 0) = true := by simp [hr]
    refine ⟨?_, ?_, ?_⟩
    · intro hc
      rw [hO, hb, hc]
      rfl
    · intro hc
      rw [hO, hb, hc]
      rfl
    · intro hc1 hc2
      rw [hO, hE, hb]
      simp [set_output_streams, hc1, hc2]
  · intro hr
    have hb : (env.rank == 0) = false := by simp [hr]
    rw [hO, hE, hb]
    exact ⟨rfl, rfl⟩

/-- Witness for C8: root process with a named log file. -/
theorem output_stream_binding_w :
    (constructLC envLogBalanceFail).1.outputP0 = OStream.logFile "balance.log" ∧
    (constructLC envLogBalanceFail).2 = [Event.openLog "balance.log"] :=
  ((output_stream_binding envLogBalanceFail sampleSettingsLog rfl).1 rfl).2.2
    (by decide) (by decide)

/-- C9: on every execution path, only the root process produces diagnostic
text: a non-root process writes zero bytes to every standard and log stream
throughout construction and `run`. -/
theorem nonroot_zero_output (env : Env) (h : env.rank ≠ 0) :
    (constructLC env).2.filter isOutEvent = [] ∧
    (runLC env (constructLC env).1).2.filter isOutEvent = [] := by
  have hb : (env.rank == 0) = false := by simp [h]
  rcases hp : lcParse env with msg | s
  · have hc := constructLC_err env msg hp
    constructor
    · rw [hc]
      simp [print_parse_error, hb]
    · rw [hc, runLC_stop env _ (by simp)]
      rfl
  · have h0 : (constructLC env).1.exitCode = 0 := constructLC_ok_exit env s hp
    have hiP : (constructLC env).1.isProc0 = false := by
      rw [constructLC_ok_isProc0 env s hp, hb]
    have hoP : (constructLC env).1.outputP0 = OStream.null := by
      rw [constructLC_ok_outputP0 env s hp, hb]
      rfl
    constructor
    · rw [constructLC_ok env s hp, hb]
      rfl
    · cases hs : serial_no_op env (constructLC env).1 with
      | false =>
        rcases hbs : balanceStep env with ⟨evs, omsg⟩
        have hevs : evs.filter isOutEvent = [] := by
          have h' := filter_out_balanceStep env
          rw [hbs] at h'
          exact h'
        cases omsg with
        | none =>
          rw [runLC_pipeline_ok env _ evs h0 hs hbs]
          simp [List.filter_append, hiP, hoP, hevs, print_running_message,
            print_banner, emit]
        | some msg =>
          rw [runLC_pipeline_fail env _ evs msg h0 hs hbs]
          simp [List.filter_append, hiP, hoP, hevs, print_running_message,
            print_banner, print_balance_error, emit]
      | true =>
        rw [runLC_noop env _ h0 hs]
        simp [List.filter_append, hiP, hoP, print_running_message, print_banner,
          print_no_op_message, emit]

/-- Witness for C9 at rank 2 of a 4-rank group. -/
theorem nonroot_zero_output_w :
    (constructLC envNonRoot).2.filter isOutEvent = [] ∧
    (runLC envNonRoot (constructLC envNonRoot).1).2.filter isOutEvent = [] :=
  nonroot_zero_output envNonRoot (by decide)

/-- C10: `run` suppresses re-execution only on a non-zero exit code; after a
run that terminated with exit code 0, a second call to `run` repeats the whole
run phase — it produces the identical trace (running banner included), and
when the no-op predicate is false it invokes read, balance and write again. -/
theorem run_after_success_reexecutes (env : Env) (lc : LifeCycle)
    (h0 : lc.exitCode = 0) (h1 : (runLC env lc).1.exitCode = 0) :
    runLC env (runLC env lc).1 = runLC env lc ∧
    (serial_no_op env lc = false →
       (runLC env (runLC env lc).1).2.filter isPipelineEvent
         = [Event.readE, Event.balanceE, Event.writeE]) := by
  have hfst : (runLC env lc).1 = lc := by
    cases hs : serial_no_op env lc with
    | false =>
      rcases hbs : balanceStep env with ⟨evs, omsg⟩
      cases omsg with
      | none => rw [runLC_pipeline_ok env lc evs h0 hs hbs]
      | some msg =>
        exfalso
        rw [runLC_pipeline_fail env lc evs msg h0 hs hbs] at h1
        simp at h1
    | true => rw [runLC_noop env lc h0 hs]
  constructor
  · rw [hfst]
  · intro hs
    rw [hfst]
    rcases hbs : balanceStep env with ⟨evs, omsg⟩
    cases omsg with
    | some msg =>
      exfalso
      rw [runLC_pipeline_fail env lc evs msg h0 hs hbs] at h1
      simp at h1
    | none =>
      have hevs := balanceStep_none_shape env evs hbs
      rw [runLC_pipeline_ok env lc evs h0 hs hbs, hevs]
      simp [List.filter_append, filter_pipeline_print_running,
        filter_pipeline_print_banner, List.filter, isPipelineEvent]

/-- Witness for C10 on a successful 4-rank balance run. -/
theorem run_after_success_reexecutes_w :
    (runLC envRunOK (runLC envRunOK (constructLC envRunOK).1).1).2.filter isPipelineEvent
      = [Event.readE, Event.balanceE, Event.writeE] :=
  (run_after_success_reexecutes envRunOK (constructLC envRunOK).1 rfl rfl).2 (by decide)
